import Mathlib

/-!
Verification of the resolution-cache and streaming-proxy core of the music
streamer (src/app.py).  The Python source is shallowly embedded: the two
module-level dictionaries (`search_cache`, `url_cache`) become finite maps
from keys to timestamped entries, wall-clock time is an explicit `Nat`
parameter, the yt-dlp extraction calls become explicit lists of attempt
outcomes, and the Flask request handlers become pure functions from their
inputs (query parameters, cache state, upstream response) to a response
value together with the updated cache state and the externally visible
effects (extraction calls, prefetch submissions).
-/

namespace MusicStreamer

/-! Cache model.  `CACHE_LIFETIME = 1800` is the constant at src/app.py:48,
used for the search cache (src/app.py:160); the URL cache uses the literal
`7200` ("2 hours cache") at src/app.py:119.  Each cache is a Python dict
guarded by `cache_lock`; we model it as a map from the key type to an
optional timestamped entry. -/

/-- CACHE_LIFETIME constant from src/app.py:48 (search-cache TTL, seconds). -/
def CACHE_LIFETIME : Nat := 1800

/-- URL-cache freshness bound in seconds: the literal `7200` at src/app.py:119. -/
def URL_CACHE_LIFETIME : Nat := 7200

/-- Entry of `url_cache`: the dict `{'url': ..., 'time': ...}` stored at
src/app.py:85 and src/app.py:104. -/
structure UrlCacheEntry where
  url : String
  time : Nat
deriving Repr, DecidableEq

/-- The module-level `url_cache` dict (src/app.py:46). -/
def UrlCache : Type := String → Option UrlCacheEntry

/-- Dict assignment `url_cache[video_id] = entry` (src/app.py:85, :104). -/
def urlCachePut (c : UrlCache) (id : String) (e : UrlCacheEntry) : UrlCache :=
  fun k => if k = id then some e else c k

/-- The cache lookup in `get_or_extract_audio_url` (src/app.py:116-120):
if the key is present and `time.time() - cache_data['time'] < 7200` the
cached URL is returned; otherwise the call behaves as a miss.  The second
component is the cache state after the lookup: the code performs no
mutation on this path, so it is returned unchanged. -/
def urlCacheGet (c : UrlCache) (id : String) (now : Nat) : Option String × UrlCache :=
  match c id with
  | some e => if now - e.time < URL_CACHE_LIFETIME then (some e.url, c) else (none, c)
  | none => (none, c)

/-- Translated search result: the dict built at src/app.py:174-180. -/
structure SearchResult where
  id : String
  title : String
  uploader : String
  thumbnail : String
  duration : String
deriving Repr, DecidableEq

/-- The module-level `search_cache` dict (src/app.py:45); values are the
`(time.time(), results)` pairs stored at src/app.py:183. -/
def SearchCache : Type := String → Option (Nat × List SearchResult)

/-- Dict assignment `search_cache[query] = (now, results)` (src/app.py:183). -/
def searchCachePut (c : SearchCache) (q : String) (ts : Nat)
    (rs : List SearchResult) : SearchCache :=
  fun k => if k = q then some (ts, rs) else c k

/-- The cache lookup in `search` (src/app.py:157-161): a hit requires the
key to be present with `time.time() - timestamp < CACHE_LIFETIME`.  As with
the URL cache, the lookup does not mutate the cache. -/
def searchCacheGet (c : SearchCache) (q : String) (now : Nat) :
    Option (List SearchResult) × SearchCache :=
  match c q with
  | some (ts, rs) => if now - ts < CACHE_LIFETIME then (some rs, c) else (none, c)
  | none => (none, c)

/-- The empty URL cache (initial state of `url_cache`, src/app.py:46). -/
def emptyUrlCache : UrlCache := fun _ => none

/-- The empty search cache (initial state of `search_cache`, src/app.py:45). -/
def emptySearchCache : SearchCache := fun _ => none

/-! Extraction model.  `safe_extract` (src/app.py:64-111) loops over three
fallback URLs for the video id; for each it calls `ydl.extract_info`, which
either raises (the `except` branch) or yields an info dict from which an
audio URL may be selected.  We embed the per-attempt outcomes as an explicit
list, in the order the fallback URLs are tried. -/

/-- Candidate media format from the `info['formats']` list as inspected at
src/app.py:90-99. -/
structure MediaFormat where
  vcodec : String
  acodec : String
  ext : String
  url : String
deriving Repr, DecidableEq

/-- Info dict of a successful `ydl.extract_info` call: an optional direct
`'url'` field plus the `'formats'` list (src/app.py:76-99). -/
structure ExtractInfo where
  directUrl : Option String
  formats : List MediaFormat
deriving Repr, DecidableEq

/-- Outcome of one fallback-URL attempt in `safe_extract`: either the
extraction raised an exception (src/app.py:107-109) or it produced an info
dict. -/
inductive AttemptResult where
  | failure
  | success (info : ExtractInfo)
deriving Repr, DecidableEq

/-- Audio-URL selection from one info dict (src/app.py:79-106): prefer the
direct `'url'` field; otherwise filter `formats` down to audio-only entries
(`vcodec == 'none'` and `acodec != 'none'`), prefer an `m4a` format for
browser compatibility, else take the first audio format; `none` when no
audio format exists, in which case the loop falls through to the next
fallback URL. -/
def pickAudioUrl (info : ExtractInfo) : Option String :=
  match info.directUrl with
  | some u => some u
  | none =>
    let audioFormats := info.formats.filter fun f =>
      f.vcodec == "none" && f.acodec != "none"
    match audioFormats.filter (fun f => f.ext == "m4a") with
    | f :: _ => some f.url
    | [] =>
      match audioFormats with
      | f :: _ => some f.url
      | [] => none

/-- URL yielded by one attempt: `none` both for a raised exception and for
an info dict with no usable audio format. -/
def attemptUrl : AttemptResult → Option String
  | .failure => none
  | .success info => pickAudioUrl info

/-- Model of `safe_extract` (src/app.py:64-111): on the first attempt that
yields an audio URL, cache it under the video id (src/app.py:84-85 and
:103-104) and return it; when every attempt fails, return `None` with the
cache untouched (src/app.py:111). -/
def safe_extract (attempts : List AttemptResult) (id : String)
    (cache : UrlCache) (now : Nat) : Option String × UrlCache :=
  match attempts with
  | [] => (none, cache)
  | a :: rest =>
    match attemptUrl a with
    | some u => (some u, urlCachePut cache id ⟨u, now⟩)
    | none => safe_extract rest id cache now

/-- Result of `get_or_extract_audio_url`, paired with the number of
`safe_extract` invocations performed (0 on a fresh cache hit, 1 otherwise). -/
structure ResolveOutcome where
  result : Option String
  cache : UrlCache
  extractionCalls : Nat

/-- Model of `get_or_extract_audio_url` (src/app.py:113-128): consult the
URL cache first and return immediately on a fresh hit; on a miss run
`safe_extract`.  The `try/except` wrapper at src/app.py:123-128 maps any
raised error to `None`, which is already the failure value of the embedded
`safe_extract`. -/
def get_or_extract_audio_url (attempts : List AttemptResult) (id : String)
    (cache : UrlCache) (now : Nat) : ResolveOutcome :=
  match (urlCacheGet cache id now).1 with
  | some u => ⟨some u, cache, 0⟩
  | none =>
    let rc := safe_extract attempts id cache now
    ⟨rc.1, rc.2, 1⟩

/-! Concurrency model for `get_or_extract_audio_url`.  The function holds
`cache_lock` only for the cache check (src/app.py:116-120) and releases it
before calling `safe_extract`, so two request threads resolving the same id
may both observe a miss and then both extract.  We model two callers, A and
B, each executing the two atomic phases of the function — the locked cache
check, then (on a miss) the extraction — under an explicit interleaving
schedule.  The global extraction counter counts `safe_extract` episodes,
i.e. resolutions that went out to the extraction service. -/

/-- Program counter of one concurrent caller of `get_or_extract_audio_url`. -/
inductive CallerPhase where
  | ready
  | needExtract
  | finished (result : Option String)
deriving Repr, DecidableEq

/-- Shared state of the two-caller execution: the `url_cache`, the number of
extraction episodes performed so far, and each caller's phase. -/
structure ConcState where
  cache : UrlCache
  extractionCount : Nat
  phaseA : CallerPhase
  phaseB : CallerPhase

/-- One atomic step of a caller: in phase `ready` it performs the locked
cache check of src/app.py:116-120 (fresh hit finishes it, miss moves it to
`needExtract`); in phase `needExtract` it runs `safe_extract` on the current
cache, finishing with that call's result and bumping the extraction count. -/
def callerStep (attempts : List AttemptResult) (id : String) (now : Nat)
    (phase : CallerPhase) (cache : UrlCache) (count : Nat) :
    CallerPhase × UrlCache × Nat :=
  match phase with
  | .ready =>
    match (urlCacheGet cache id now).1 with
    | some u => (.finished (some u), cache, count)
    | none => (.needExtract, cache, count)
  | .needExtract =>
    let rc := safe_extract attempts id cache now
    (.finished rc.1, rc.2, count + 1)
  | .finished r => (.finished r, cache, count)

/-- Run an interleaving schedule over the two callers: `true` steps caller A
(using attempt outcomes `attemptsA`), `false` steps caller B. -/
def runSchedule (attemptsA attemptsB : List AttemptResult) (id : String)
    (now : Nat) : List Bool → ConcState → ConcState
  | [], s => s
  | true :: rest, s =>
    let r := callerStep attemptsA id now s.phaseA s.cache s.extractionCount
    runSchedule attemptsA attemptsB id now rest
      { cache := r.2.1, extractionCount := r.2.2, phaseA := r.1, phaseB := s.phaseB }
  | false :: rest, s =>
    let r := callerStep attemptsB id now s.phaseB s.cache s.extractionCount
    runSchedule attemptsA attemptsB id now rest
      { cache := r.2.1, extractionCount := r.2.2, phaseA := s.phaseA, phaseB := r.1 }

/-- Initial state: empty `url_cache`, no extractions, both callers about to
check the cache. -/
def initConcState : ConcState :=
  { cache := emptyUrlCache, extractionCount := 0, phaseA := .ready, phaseB := .ready }

/-- The racing schedule: both callers perform their cache check before
either begins extracting, then each extracts in turn. -/
def racingSchedule : List Bool := [true, false, true, false]

/-! Search handler model (src/app.py:149-190). -/

/-- Python `str.strip`: remove leading and trailing whitespace. -/
def pyStrip (l : List Char) : List Char :=
  ((l.dropWhile Char.isWhitespace).reverse.dropWhile Char.isWhitespace).reverse

/-- Python `str.strip` on a whole string. -/
def pyStripString (s : String) : String :=
  String.mk (pyStrip s.toList)

/-- Two-digit zero padding, mirroring Python's `{:02d}` format. -/
def pad2 (n : Nat) : String :=
  if n < 10 then "0" ++ toString n else toString n

/-- Model of `format_duration` (src/app.py:53-62).  Python's `if not
seconds` treats both `None` and `0` as falsy, so both yield "N/A"; otherwise
`divmod` splits into hours, minutes and seconds. -/
def format_duration : Option Nat → String
  | none => "N/A"
  | some 0 => "N/A"
  | some n =>
    let s := n % 60
    let m := n / 60 % 60
    let h := n / 60 / 60
    if h > 0 then toString h ++ ":" ++ pad2 m ++ ":" ++ pad2 s
    else toString m ++ ":" ++ pad2 s

/-- Raw search entry from the flat extraction (`result['entries']`,
src/app.py:171-180): `id` and `title` are read unconditionally, `uploader`
and `duration` through `.get` with defaults. -/
structure RawEntry where
  id : String
  title : String
  uploader : Option String
  duration : Option Nat
deriving Repr, DecidableEq

/-- Translation of one raw entry into the response dict built at
src/app.py:174-180: title truncated to 80 characters, uploader defaulted to
"Unknown" and truncated to 40, thumbnail URL synthesized from the id. -/
def translateEntry (e : RawEntry) : SearchResult :=
  { id := e.id
    title := e.title.take 80
    uploader := (e.uploader.getD "Unknown").take 40
    thumbnail := "https://i.ytimg.com/vi/" ++ e.id ++ "/hqdefault.jpg"
    duration := format_duration e.duration }

/-- Translation of the whole entries list: the loop at src/app.py:172-180
skips falsy (`None`) entries. -/
def translateEntries (es : List (Option RawEntry)) : List SearchResult :=
  es.filterMap (fun e => e.map translateEntry)

/-- Outcome of the `ydl.extract_info(search_query)` call in `search`
(src/app.py:167-171): an exception, or a result dict that may or may not
carry an `'entries'` list. -/
inductive SearchOutcome where
  | failure
  | success (entries : Option (List (Option RawEntry)))
deriving Repr, DecidableEq

/-- Response of the `/search` handler. -/
inductive SearchResponse where
  | invalidInput
  | hit (results : List SearchResult)
  | fresh (results : List SearchResult)
  | searchFailed
deriving Repr, DecidableEq

/-- Model of the `/search` handler (src/app.py:149-190).  Output: the
response, the search cache after the call, and the list of ids submitted to
the prefetch worker pool by this handler.  An empty stripped query is
rejected with 400 (src/app.py:152-154); a fresh cache hit is returned
directly (src/app.py:157-161); otherwise the extraction service is queried,
the translated results are cached under the stripped query (src/app.py:183)
and returned, and an extraction exception yields the 500 error
(src/app.py:187-190).  No path submits anything to the worker pool: the only
`executor.submit` in the program is in the separate `/prefetch` handler. -/
def search (rawQuery : String) (outcome : SearchOutcome)
    (cache : SearchCache) (now : Nat) :
    SearchResponse × SearchCache × List String :=
  let query := pyStripString rawQuery
  if query = "" then (.invalidInput, cache, [])
  else
    match (searchCacheGet cache query now).1 with
    | some results => (.hit results, cache, [])
    | none =>
      match outcome with
      | .failure => (.searchFailed, cache, [])
      | .success entries? =>
        let results :=
          match entries? with
          | some es => translateEntries es
          | none => []
        (.fresh results, searchCachePut cache query now results, [])

/-! Prefetch handler model (src/app.py:130-147). -/

/-- Python truthiness of a request parameter: `request.args.get` yields
`None` when the parameter is missing, and the empty string is falsy. -/
def validId : Option String → Option String
  | some s => if s = "" then none else some s
  | none => none

/-- Model of the `/prefetch` handler (src/app.py:141-147): when the id is
truthy, submit `background_extract_task` for it to the worker pool; in every
case respond `{'status': 'queued'}` with HTTP 200.  Output: (status code,
body) plus the list of ids submitted to the executor. -/
def prefetch (videoId? : Option String) : (Nat × String) × List String :=
  match validId videoId? with
  | some id => ((200, "queued"), [id])
  | none => ((200, "queued"), [])

/-- Model of `background_extract_task` (src/app.py:130-135): the body is the
outcome of the `get_or_extract_audio_url` call, embedded as `Except` so that
a raised exception is representable; the worker catches any exception and
only prints it.  Output: the resulting cache plus the error propagated back
to the submitter — `none` on both paths. -/
def background_extract_task (body : Except String ResolveOutcome)
    (cache : UrlCache) : UrlCache × Option String :=
  match body with
  | .ok r => (r.cache, none)
  | .error _ => (cache, none)

/-! Streaming-proxy model (src/app.py:192-301). -/

/-- Substring test, modelling Python's `in` operator on strings
(src/app.py:234-236). -/
def strContains (hay needle : String) : Bool :=
  hay.toList.tails.any (fun t => needle.toList.isPrefixOf t)

/-- Upstream reply to the `requests.get` on the resolved audio URL: status
code, the `content-type` and `content-length` response headers, and the body
bytes (delivered by `iter_content`; we record the byte sequence). -/
structure UpstreamResponse where
  status : Nat
  contentType : Option String
  contentLength : Option String
  body : List Nat
deriving Repr, DecidableEq

/-- Content type chosen by the `/stream` handler (src/app.py:232-237): start
from the upstream `content-type` header (default `audio/mpeg`), then
override from the URL itself: `audio/mp4` when the URL mentions `m4a` or
`mp4`, `audio/webm` when it mentions `webm`. -/
def streamContentType (url : String) (up : UpstreamResponse) : String :=
  let ct := up.contentType.getD "audio/mpeg"
  if strContains url "m4a" || strContains url "mp4" then "audio/mp4"
  else if strContains url "webm" then "audio/webm"
  else ct

/-- Result of the `/stream` proxying stage. -/
inductive StreamResult where
  | upstreamError (upstreamStatus : Nat)
  | ok (status : Nat) (contentType : String) (contentLength : String)
      (chunkSize : Nat) (body : List Nat)
deriving Repr, DecidableEq

/-- Model of the `/stream` proxying stage (src/app.py:217-253): a non-200
upstream status is rejected with a 500 error JSON (src/app.py:219-221),
forwarding nothing; otherwise the upstream body is re-emitted in
`1024 * 16`-byte chunks (src/app.py:224) with the derived content type and
the forwarded content length, at the upstream status code. -/
def streamProxy (url : String) (up : UpstreamResponse) : StreamResult :=
  if up.status ≠ 200 then .upstreamError up.status
  else .ok up.status (streamContentType url up) (up.contentLength.getD "")
    (1024 * 16) up.body

/-- Bytes the `/stream` handler forwards to the client: none on the
upstream-error path. -/
def streamForwardedBytes : StreamResult → List Nat
  | .upstreamError _ => []
  | .ok _ _ _ _ b => b

/-! Download handler model (src/app.py:263-300), including the filename
sanitization at src/app.py:288-289. -/

/-- Characters kept by the sanitizer at src/app.py:288: alphanumerics plus
space, hyphen and underscore. -/
def allowedChar (c : Char) : Bool :=
  c.isAlphanum || c == ' ' || c == '-' || c == '_'

/-- `safe_title` computation at src/app.py:288: keep only the allowed
characters, strip surrounding whitespace, and fall back to "audio" when
nothing remains (Python's `or` on the falsy empty string). -/
def safe_title (title : List Char) : List Char :=
  if pyStrip (title.filter allowedChar) = [] then ("audio").toList
  else pyStrip (title.filter allowedChar)

/-- Filename built at src/app.py:289: the sanitized title plus ".mp3". -/
def download_filename (title : List Char) : List Char :=
  safe_title title ++ (".mp3").toList

/-- Response of the `/download` proxying stage (src/app.py:276-295). -/
structure DownloadResult where
  status : Nat
  contentType : String
  contentDisposition : String
  contentLength : String
  chunkSize : Nat
  body : List Nat
deriving Repr, DecidableEq

/-- Model of the `/download` proxying stage (src/app.py:276-295): no status
check is performed on the upstream response; the body is re-emitted in
8192-byte chunks (src/app.py:284) with fixed content type `audio/mpeg`, a
Content-Disposition attachment header built from the sanitized title, the
forwarded content length, and Flask's default status 200. -/
def downloadProxy (title : String) (up : UpstreamResponse) : DownloadResult :=
  { status := 200
    contentType := "audio/mpeg"
    contentDisposition :=
      "attachment; filename=\"" ++ String.mk (download_filename title.toList) ++ "\""
    contentLength := up.contentLength.getD ""
    chunkSize := 8192
    body := up.body }

/-- Response kind of the `/stream` and `/download` handlers, covering the
pre-proxy failure modes. -/
inductive EndpointResponse (α : Type) where
  | badRequest
  | extractionFailed
  | ok (r : α)
deriving Repr, DecidableEq

/-- Model of the `/stream` handler (src/app.py:192-253): validate the id
(src/app.py:195-197), resolve it, then proxy.  The output also carries the
URL cache after the call and the number of extraction episodes performed, so
that claims about what an invalid request touches are statable. -/
def stream_endpoint (videoId? : Option String) (attempts : List AttemptResult)
    (cache : UrlCache) (now : Nat) (up : UpstreamResponse) :
    EndpointResponse StreamResult × UrlCache × Nat :=
  match validId videoId? with
  | none => (.badRequest, cache, 0)
  | some id =>
    let r := get_or_extract_audio_url attempts id cache now
    match r.result with
    | none => (.extractionFailed, r.cache, r.extractionCalls)
    | some url => (.ok (streamProxy url up), r.cache, r.extractionCalls)

/-- Model of the `/download` handler (src/app.py:263-300): validate the id
(src/app.py:269-270; the title defaults to "track"), resolve, then proxy. -/
def download_endpoint (videoId? : Option String) (title? : Option String)
    (attempts : List AttemptResult) (cache : UrlCache) (now : Nat)
    (up : UpstreamResponse) :
    EndpointResponse DownloadResult × UrlCache × Nat :=
  let title := title?.getD "track"
  match validId videoId? with
  | none => (.badRequest, cache, 0)
  | some id =>
    let r := get_or_extract_audio_url attempts id cache now
    match r.result with
    | none => (.extractionFailed, r.cache, r.extractionCalls)
    | some _url => (.ok (downloadProxy title up), r.cache, r.extractionCalls)

end MusicStreamer

namespace MusicStreamer

/-! Theorems for the TTL-cache claims. -/

/-- Claim C2: for every key and value, a cache put followed by a get before
the cache's TTL elapses (1800 s for the search cache, 7200 s for the URL
cache) returns exactly the stored value; a get at or after the TTL has
elapsed returns a miss, and a subsequent put for the same key stores the
new value as if fresh. -/
theorem ttl_cache_roundtrip :
    ∀ (c : UrlCache) (id u : String) (t now : Nat),
      (now - t < 7200 →
        (urlCacheGet (urlCachePut c id ⟨u, t⟩) id now).1 = some u) ∧
      (7200 ≤ now - t →
        (urlCacheGet (urlCachePut c id ⟨u, t⟩) id now).1 = none) ∧
      (∀ (u2 : String) (t2 now2 : Nat), now2 - t2 < 7200 →
        (urlCacheGet (urlCachePut (urlCachePut c id ⟨u, t⟩) id ⟨u2, t2⟩) id now2).1
          = some u2) ∧
      ∀ (s : SearchCache) (q : String) (rs : List SearchResult),
        (now - t < 1800 →
          (searchCacheGet (searchCachePut s q t rs) q now).1 = some rs) ∧
        (1800 ≤ now - t →
          (searchCacheGet (searchCachePut s q t rs) q now).1 = none) ∧
        ∀ (rs2 : List SearchResult) (t2 now2 : Nat), now2 - t2 < 1800 →
          (searchCacheGet (searchCachePut (searchCachePut s q t rs) q t2 rs2) q now2).1
            = some rs2 := by
  intro c id u t now
  refine ⟨fun h => ?_, fun h => ?_, fun u2 t2 now2 h => ?_, ?_⟩
  · simp [urlCacheGet, urlCachePut, URL_CACHE_LIFETIME, h]
  · simp [urlCacheGet, urlCachePut, URL_CACHE_LIFETIME, Nat.not_lt.mpr h]
  · simp [urlCacheGet, urlCachePut, URL_CACHE_LIFETIME, h]
  · intro s q rs
    refine ⟨fun h => ?_, fun h => ?_, fun rs2 t2 now2 h => ?_⟩
    · simp [searchCacheGet, searchCachePut, CACHE_LIFETIME, h]
    · simp [searchCacheGet, searchCachePut, CACHE_LIFETIME, Nat.not_lt.mpr h]
    · simp [searchCacheGet, searchCachePut, CACHE_LIFETIME, h]

/-- Witness for C2: concrete instance of the fresh-read conjunct at key
"a", value "u", stored at time 0 and read at time 10. -/
theorem ttl_cache_roundtrip_witness :
    (urlCacheGet (urlCachePut emptyUrlCache "a" ⟨"u", 0⟩) "a" 10).1 = some "u" :=
  (ttl_cache_roundtrip emptyUrlCache "a" "u" 0 10).1 (by decide)

/-- Claim C6 counterexample: with `url_cache = {"abc": {url: "u", time: 0}}`,
a get at time 7200 misses (the entry is expired), yet immediately afterwards
the key is still present in the underlying map: the code removes nothing on
an expired read, contradicting the claimed lazy eviction. -/
theorem stale_entry_not_removed_counterexample :
    ((urlCacheGet (urlCachePut emptyUrlCache "abc" ⟨"u", 0⟩) "abc" 7200).1 = none) ∧
    ((urlCacheGet (urlCachePut emptyUrlCache "abc" ⟨"u", 0⟩) "abc" 7200).2 "abc"
      = some ⟨"u", 0⟩) := by
  constructor <;> rfl

/-- Claim C6 (amended): a cache get, expired or not, never mutates the
cache: both lookups return the underlying map unchanged, so after an expired
read the stale entry is still present; it is replaced only by a later put. -/
theorem cache_get_no_eviction :
    ∀ (c : UrlCache) (id : String) (s : SearchCache) (q : String) (now : Nat),
      (urlCacheGet c id now).2 = c ∧ (searchCacheGet s q now).2 = s := by
  intro c id s q now
  constructor
  · cases h : c id with
    | none => simp [urlCacheGet, h]
    | some e =>
      simp only [urlCacheGet, h]
      split <;> rfl
  · cases h : s q with
    | none => simp [searchCacheGet, h]
    | some p =>
      simp only [searchCacheGet, h]
      split <;> rfl

/-- Helper: when every attempt fails, `safe_extract` returns `None` and the
cache it was given, unchanged. -/
theorem safe_extract_all_fail (id : String) (now : Nat) :
    ∀ (attempts : List AttemptResult) (c : UrlCache),
      (∀ a ∈ attempts, attemptUrl a = none) →
      safe_extract attempts id c now = (none, c) := by
  intro attempts
  induction attempts with
  | nil => intro c _; rfl
  | cons a rest ih =>
    intro c h
    have ha : attemptUrl a = none := h a (by simp)
    have hrest : ∀ x ∈ rest, attemptUrl x = none := fun x hx => h x (by simp [hx])
    simp [safe_extract, ha, ih c hrest]

/-- Claim C3: a resolution in which every extraction attempt fails returns
`None` and leaves the URL cache entirely unchanged (in particular no entry
for the id is created or modified), and a subsequent resolve whose cache
lookup misses consults the extraction service again (one `safe_extract`
invocation) rather than returning a cached failure. -/
theorem failed_extraction_leaves_cache_unchanged
    (attempts : List AttemptResult) (id : String) (c : UrlCache) (now : Nat)
    (h : ∀ a ∈ attempts, attemptUrl a = none) :
    safe_extract attempts id c now = (none, c) ∧
    ∀ (attempts2 : List AttemptResult) (now2 : Nat),
      (urlCacheGet c id now2).1 = none →
      (get_or_extract_audio_url attempts2 id c now2).extractionCalls = 1 := by
  refine ⟨safe_extract_all_fail id now attempts c h, ?_⟩
  intro attempts2 now2 hc
  simp [get_or_extract_audio_url, hc]

/-- Witness for C3: three failing attempts on the empty cache at time 5
leave the cache unchanged, and a later resolve at time 9 performs one
extraction call. -/
theorem failed_extraction_witness :
    safe_extract [.failure, .failure, .failure] "abc" emptyUrlCache 5
      = (none, emptyUrlCache) ∧
    (get_or_extract_audio_url [.failure] "abc" emptyUrlCache 9).extractionCalls = 1 := by
  have h := failed_extraction_leaves_cache_unchanged
    [.failure, .failure, .failure] "abc" emptyUrlCache 5 (by decide)
  exact ⟨h.1, h.2 [.failure] 9 rfl⟩

/-- Claim C1 counterexample: two concurrent resolves of id "abc", both
issued before either completes (both cache checks precede both
extractions), perform two extraction-service episodes, not one — and the
callers do not receive the result of a single shared extraction: caller A
gets the URL "ua" while caller B, whose own attempts all fail, gets `None`. -/
theorem single_flight_counterexample :
    ((runSchedule [.success ⟨some "ua", []⟩] [.failure, .failure, .failure]
        "abc" 0 racingSchedule initConcState).extractionCount = 2) ∧
    ((runSchedule [.success ⟨some "ua", []⟩] [.failure, .failure, .failure]
        "abc" 0 racingSchedule initConcState).phaseA = .finished (some "ua")) ∧
    ((runSchedule [.success ⟨some "ua", []⟩] [.failure, .failure, .failure]
        "abc" 0 racingSchedule initConcState).phaseB = .finished none) :=
  ⟨rfl, rfl, rfl⟩

/-- Claim C1 (amended): the code performs no single-flight deduplication.
Since `cache_lock` is released between the cache check and `safe_extract`,
the interleaving in which both concurrent callers check the cache before
either extracts is possible; in it each cache-missing caller performs its
own extraction — two extraction episodes for two callers — and each caller
receives the result of its own extraction rather than of a single shared
one. -/
theorem concurrent_resolve_no_single_flight :
    ∀ (attemptsA attemptsB : List AttemptResult) (id : String) (now : Nat),
      ((runSchedule attemptsA attemptsB id now racingSchedule
          initConcState).extractionCount = 2) ∧
      ((runSchedule attemptsA attemptsB id now racingSchedule
          initConcState).phaseA
        = .finished (safe_extract attemptsA id emptyUrlCache now).1) ∧
      ((runSchedule attemptsA attemptsB id now racingSchedule
          initConcState).phaseB
        = .finished
            (safe_extract attemptsB id
              (safe_extract attemptsA id emptyUrlCache now).2 now).1) :=
  fun _ _ _ _ => ⟨rfl, rfl, rfl⟩

/-- Claim C4 counterexample: a search for "test" on an empty cache with the
extraction service returning 2 raw results does cache exactly those 2
translated results under key "test", but issues 0 prefetch submissions, not
the claimed 2: the handler never submits anything to the worker pool. -/
theorem search_no_prefetch_counterexample :
    ((search "test"
        (.success (some [some ⟨"id1", "t1", none, none⟩,
                         some ⟨"id2", "t2", some "up", some 61⟩]))
        emptySearchCache 0).2.1 "test"
      = some (0, [translateEntry ⟨"id1", "t1", none, none⟩,
                  translateEntry ⟨"id2", "t2", some "up", some 61⟩])) ∧
    (((search "test"
        (.success (some [some ⟨"id1", "t1", none, none⟩,
                         some ⟨"id2", "t2", some "up", some 61⟩]))
        emptySearchCache 0).2.2.length == 2) = false) :=
  ⟨rfl, by decide⟩

/-- Claim C4 (amended): a search that misses the cache and succeeds stores
exactly the translated result list in the search cache under the stripped
query and returns it, but issues no prefetch submissions at all; prefetching
is driven by the separate `/prefetch` endpoint. -/
theorem search_populates_cache_no_prefetch
    (rawQuery : String) (es : List (Option RawEntry)) (cache : SearchCache)
    (now : Nat) (hq : ¬ (pyStripString rawQuery = ""))
    (hmiss : (searchCacheGet cache (pyStripString rawQuery) now).1 = none) :
    search rawQuery (.success (some es)) cache now
      = (.fresh (translateEntries es),
         searchCachePut cache (pyStripString rawQuery) now (translateEntries es),
         []) := by
  simp [search, hq, hmiss]

/-- Witness for C4's amended theorem: a concrete one-entry search on the
empty cache. -/
theorem search_populates_cache_no_prefetch_witness :
    search "test" (.success (some [some ⟨"a", "t", none, none⟩]))
        emptySearchCache 3
      = (.fresh (translateEntries [some ⟨"a", "t", none, none⟩]),
         searchCachePut emptySearchCache (pyStripString "test") 3
           (translateEntries [some ⟨"a", "t", none, none⟩]), []) :=
  search_populates_cache_no_prefetch "test" [some ⟨"a", "t", none, none⟩]
    emptySearchCache 3 (by decide) rfl

/-- Claim C7: the prefetch handler answers 200 `{'status': 'queued'}` no
matter what (its response does not depend on the background resolution at
all), and the background task propagates no error back to any caller,
whatever the embedded resolution body does — including raising. -/
theorem prefetch_nonblocking_error_silent :
    ∀ (videoId? : Option String) (body : Except String ResolveOutcome)
      (cache : UrlCache),
      (prefetch videoId?).1 = (200, "queued") ∧
      (background_extract_task body cache).2 = none := by
  intro v body c
  constructor
  · cases v with
    | none => rfl
    | some s =>
      by_cases h : s = "" <;> simp [prefetch, validId, h]
  · cases body <;> rfl

/-- Claim C5 counterexample: a download whose upstream fetch answers status
404 with body bytes `[1, 2, 3]` does not fail — it responds 200 and forwards
exactly those upstream body bytes, because the download handler never checks
the upstream status. -/
theorem download_ignores_upstream_status_counterexample :
    ((downloadProxy "t" ⟨404, none, none, [1, 2, 3]⟩).status = 200) ∧
    ((downloadProxy "t" ⟨404, none, none, [1, 2, 3]⟩).body = [1, 2, 3]) :=
  ⟨rfl, rfl⟩

/-- Claim C5 (amended): the stream operation rejects a non-success upstream
status with an upstream-error response, forwarding no upstream body bytes
and performing no retry; the download operation performs no status check and
forwards the upstream body regardless of the status. -/
theorem stream_upstream_error_no_bytes (url : String) (up : UpstreamResponse)
    (h : ¬ (up.status = 200)) :
    streamProxy url up = .upstreamError up.status ∧
    streamForwardedBytes (streamProxy url up) = [] ∧
    ∀ title : String, (downloadProxy title up).body = up.body := by
  refine ⟨by simp [streamProxy, h], ?_, fun _ => rfl⟩
  simp [streamProxy, h, streamForwardedBytes]

/-- Witness for C5's amended theorem at upstream status 403. -/
theorem stream_upstream_error_no_bytes_witness :
    streamProxy "http://u" ⟨403, none, none, [9]⟩ = .upstreamError 403 ∧
    streamForwardedBytes (streamProxy "http://u" ⟨403, none, none, [9]⟩) = [] ∧
    ∀ title : String, (downloadProxy title ⟨403, none, none, [9]⟩).body = [9] :=
  stream_upstream_error_no_bytes "http://u" ⟨403, none, none, [9]⟩ (by decide)

/-- Claim C8 counterexample: on the same resolved URL and the same upstream
response, stream and download differ beyond the Content-Disposition header:
stream re-emits in 16384-byte chunks with the derived content type
`audio/webm`, while download uses 8192-byte chunks and the fixed content
type `audio/mpeg`. -/
theorem download_not_stream_plus_header_counterexample :
    (streamProxy "http://h/a.webm" ⟨200, some "audio/webm", some "100", [7, 8]⟩
      = .ok 200 "audio/webm" "100" 16384 [7, 8]) ∧
    ((downloadProxy "song" ⟨200, some "audio/webm", some "100", [7, 8]⟩).chunkSize
      = 8192) ∧
    ((downloadProxy "song" ⟨200, some "audio/webm", some "100", [7, 8]⟩).contentType
      = "audio/mpeg") :=
  ⟨rfl, rfl, rfl⟩

/-- Claim C8 (amended): on a 200 upstream response, download delivers the
same byte sequence as stream, but beyond the added Content-Disposition
attachment header it also differs from stream in chunk size (8192 versus
16384), in content type (fixed `audio/mpeg` rather than derived from the
upstream header and the URL), and in upstream status handling (download
performs no status check). -/
theorem download_vs_stream (url title : String) (up : UpstreamResponse)
    (h : up.status = 200) :
    streamProxy url up
      = .ok 200 (streamContentType url up) (up.contentLength.getD "")
          16384 up.body ∧
    (downloadProxy title up).body = up.body ∧
    (downloadProxy title up).chunkSize = 8192 ∧
    (downloadProxy title up).contentType = "audio/mpeg" ∧
    (downloadProxy title up).status = 200 ∧
    (downloadProxy title up).contentDisposition
      = "attachment; filename=\"" ++ String.mk (download_filename title.toList)
          ++ "\"" := by
  refine ⟨?_, rfl, rfl, rfl, rfl, rfl⟩
  simp [streamProxy, h]

/-- Witness for C8's amended theorem on a concrete 200 upstream response. -/
theorem download_vs_stream_witness :
    streamProxy "http://h/x" ⟨200, none, none, [1]⟩
      = .ok 200 (streamContentType "http://h/x" ⟨200, none, none, [1]⟩) ""
          16384 [1] ∧
    (downloadProxy "t" ⟨200, none, none, [1]⟩).body = [1] ∧
    (downloadProxy "t" ⟨200, none, none, [1]⟩).chunkSize = 8192 ∧
    (downloadProxy "t" ⟨200, none, none, [1]⟩).contentType = "audio/mpeg" ∧
    (downloadProxy "t" ⟨200, none, none, [1]⟩).status = 200 ∧
    (downloadProxy "t" ⟨200, none, none, [1]⟩).contentDisposition
      = "attachment; filename=\"" ++ String.mk (download_filename ("t").toList)
          ++ "\"" :=
  download_vs_stream "http://h/x" "t" ⟨200, none, none, [1]⟩ rfl

/-- Claim C9 counterexample: a prefetch request with a missing id is not
rejected with an invalid-input error: the handler answers 200
`{'status': 'queued'}`. -/
theorem prefetch_missing_id_not_rejected_counterexample :
    (prefetch none).1 = (200, "queued") ∧ (((prefetch none).1.1 == 400) = false) :=
  ⟨rfl, by decide⟩

/-- Claim C9 (amended): search, stream and download reject a missing or
empty query/id with a 400 invalid-input response before touching any cache
or the extraction service (the caches come back unchanged and zero
extraction episodes occur); prefetch, however, accepts the invalid request
and returns its usual 200 queued response, merely skipping the submission. -/
theorem invalid_input_rejected_early
    (rawQuery : String) (hq : pyStripString rawQuery = "")
    (outcome : SearchOutcome) (sc : SearchCache)
    (videoId? : Option String) (hid : validId videoId? = none)
    (title? : Option String) (attempts : List AttemptResult)
    (c : UrlCache) (now : Nat) (up : UpstreamResponse) :
    search rawQuery outcome sc now = (.invalidInput, sc, []) ∧
    stream_endpoint videoId? attempts c now up = (.badRequest, c, 0) ∧
    download_endpoint videoId? title? attempts c now up = (.badRequest, c, 0) ∧
    prefetch videoId? = ((200, "queued"), []) := by
  refine ⟨by simp [search, hq], ?_, ?_, ?_⟩
  · simp [stream_endpoint, hid]
  · simp [download_endpoint, hid]
  · simp [prefetch, hid]

/-- Witness for C9's amended theorem: whitespace-only query and empty id. -/
theorem invalid_input_rejected_early_witness :
    search "   " .failure emptySearchCache 0
      = (.invalidInput, emptySearchCache, []) ∧
    stream_endpoint (some "") [] emptyUrlCache 0 ⟨200, none, none, []⟩
      = (.badRequest, emptyUrlCache, 0) ∧
    download_endpoint (some "") none [] emptyUrlCache 0 ⟨200, none, none, []⟩
      = (.badRequest, emptyUrlCache, 0) ∧
    prefetch (some "") = ((200, "queued"), []) :=
  invalid_input_rejected_early "   " (by decide) .failure emptySearchCache
    (some "") (by decide) none [] emptyUrlCache 0 ⟨200, none, none, []⟩

/-- Helper: the head of a `dropWhile` never satisfies the predicate. -/
theorem head_dropWhile_false (w : Char → Bool) :
    ∀ (l : List Char) (c : Char), (l.dropWhile w).head? = some c → w c = false := by
  intro l
  induction l with
  | nil => intro c h; cases h
  | cons x xs ih =>
    intro c h
    cases hw : w x with
    | true =>
      apply ih c
      rw [List.dropWhile_cons, if_pos hw] at h
      exact h
    | false =>
      rw [List.dropWhile_cons, if_neg (by simp [hw])] at h
      have hx : x = c := Option.some.inj h
      rw [← hx]
      exact hw

/-- Helper: `dropWhile` over a list ending in a non-matching element keeps
that element last. -/
theorem dropWhile_append_singleton (w : Char → Bool) (x : Char)
    (hx : w x = false) :
    ∀ ys : List Char, (ys ++ [x]).dropWhile w = ys.dropWhile w ++ [x] := by
  intro ys
  induction ys with
  | nil => simp [List.dropWhile_cons, hx]
  | cons y ys ih =>
    cases hw : w y with
    | true => simpa [List.dropWhile_cons, hw] using ih
    | false => simp [List.dropWhile_cons, hw]

/-- Helper: the first character of a stripped list is not whitespace. -/
theorem pyStrip_head_not_white :
    ∀ (l : List Char) (c : Char),
      (pyStrip l).head? = some c → c.isWhitespace = false := by
  intro l
  induction l with
  | nil => intro c h; cases h
  | cons x xs ih =>
    intro c h
    cases hw : x.isWhitespace with
    | true =>
      apply ih c
      unfold pyStrip at h ⊢
      rw [List.dropWhile_cons, if_pos hw] at h
      exact h
    | false =>
      unfold pyStrip at h
      rw [List.dropWhile_cons, if_neg (by simp [hw]), List.reverse_cons,
          dropWhile_append_singleton Char.isWhitespace x hw,
          List.reverse_append] at h
      simp at h
      rw [← h]
      exact hw

/-- Helper: the last character of a stripped list is not whitespace. -/
theorem pyStrip_last_not_white (l : List Char) (c : Char)
    (h : (pyStrip l).reverse.head? = some c) : c.isWhitespace = false := by
  unfold pyStrip at h
  rw [List.reverse_reverse] at h
  exact head_dropWhile_false Char.isWhitespace _ c h

/-- Helper: every character of `pyStrip l` is a character of `l`. -/
theorem mem_of_mem_pyStrip {l : List Char} {c : Char} (h : c ∈ pyStrip l) :
    c ∈ l := by
  unfold pyStrip at h
  rw [List.mem_reverse] at h
  have h1 := (List.dropWhile_suffix Char.isWhitespace).sublist.subset h
  rw [List.mem_reverse] at h1
  exact (List.dropWhile_suffix Char.isWhitespace).sublist.subset h1

/-- Claim C10: for every title, the sanitized `safe_title` is nonempty
(falling back to "audio" when sanitization leaves nothing), consists only of
alphanumerics, spaces, hyphens and underscores, carries no leading or
trailing whitespace, and the download filename is exactly the sanitized
title followed by ".mp3". -/
theorem download_filename_sanitized (title : List Char) :
    safe_title title ≠ [] ∧
    (∀ c ∈ safe_title title, allowedChar c = true) ∧
    (∀ c : Char, (safe_title title).head? = some c → c.isWhitespace = false) ∧
    (∀ c : Char, (safe_title title).reverse.head? = some c →
      c.isWhitespace = false) ∧
    download_filename title = safe_title title ++ (".mp3").toList := by
  refine ⟨?_, ?_, ?_, ?_, rfl⟩
  · by_cases h : pyStrip (title.filter allowedChar) = []
    · unfold safe_title; rw [if_pos h]; decide
    · unfold safe_title; rw [if_neg h]; exact h
  · intro c hc
    unfold safe_title at hc
    by_cases h : pyStrip (title.filter allowedChar) = []
    · rw [if_pos h] at hc
      have hall : ∀ x ∈ ("audio").toList, allowedChar x = true := by decide
      exact hall c hc
    · rw [if_neg h] at hc
      exact (List.mem_filter.mp (mem_of_mem_pyStrip hc)).2
  · intro c hc
    unfold safe_title at hc
    by_cases h : pyStrip (title.filter allowedChar) = []
    · rw [if_pos h] at hc
      have he : (("audio").toList).head? = some 'a' := rfl
      rw [he] at hc
      rw [← Option.some.inj hc]
      decide
    · rw [if_neg h] at hc
      exact pyStrip_head_not_white (title.filter allowedChar) c hc
  · intro c hc
    unfold safe_title at hc
    by_cases h : pyStrip (title.filter allowedChar) = []
    · rw [if_pos h] at hc
      have he : (("audio").toList).reverse.head? = some 'o' := rfl
      rw [he] at hc
      rw [← Option.some.inj hc]
      decide
    · rw [if_neg h] at hc
      exact pyStrip_last_not_white (title.filter allowedChar) c hc

/-- Witness for C10 at the concrete title "  My Song!* ": the sanitized
title is nonempty and its first character is 'M', not whitespace. -/
theorem download_filename_sanitized_witness :
    safe_title (("  My Song!* ").toList) ≠ [] ∧
    (safe_title (("  My Song!* ").toList)).head? = some 'M' ∧
    ('M').isWhitespace = false :=
  ⟨(download_filename_sanitized (("  My Song!* ").toList)).1, rfl,
   (download_filename_sanitized (("  My Song!* ").toList)).2.2.1 'M' rfl⟩

end MusicStreamer
